import Mathlib

/-
Verification development for the civic-report backend.

This file shallowly embeds the report lifecycle engine of the repository:
the report data model and pre-save hook (src/models/Report.js), the media
upload orchestration with compensating rollback (utils/mediaService.js,
given as src/unnamed/part_001), the report controllers createReport,
getMyReports, getNearbyReports, calculateSeverity and upvoteReport
(src/controllers/reportController.js), the admin controllers
updateReportStatus, rejectReport and getAllReports (src/unnamed/part_002),
and the nearby-query validator (utils/reportValidation.js, given inside
src/utils/otpService.js).

Conventions of the embedding:
- JavaScript strings are Lean String; object ids are Nat.
- The Mongo collection is a function from report id to Option Report.
- External I/O outcomes (the media store) are supplied as data on the
  input (an Option upload result per file, a Bool oracle for deletes),
  so the orchestration logic stays a pure function of its inputs.
- Timestamps are omitted from history entries (wall-clock time is out of
  scope for the verified properties).
- HTTP error responses are an error enum; a controller that answers an
  error status without saving is embedded as returning Except.error.
-/

namespace CivicReport

/-- Report status values, STATUS_ENUM of src/models/Report.js. -/
inductive Status where
  | reported
  | acknowledged
  | in_progress
  | resolved
  | closed
  | rejected
deriving DecidableEq, Fintype

/-- Severity values, SEVERITY_ENUM of src/models/Report.js. -/
inductive Severity where
  | low
  | medium
  | high
  | critical
deriving DecidableEq, Fintype

/-- Media attachment kinds, MEDIA_TYPE_ENUM of src/models/Report.js. -/
inductive MediaKind where
  | image
  | video
  | audio
deriving DecidableEq, Fintype

abbrev UserId := Nat

abbrev ReportId := Nat

/-- The string stored for each status value in the database. -/
def statusToString : Status → String
  | .reported => "reported"
  | .acknowledged => "acknowledged"
  | .in_progress => "in_progress"
  | .resolved => "resolved"
  | .closed => "closed"
  | .rejected => "rejected"

/-- The string stored for each severity value in the database. -/
def severityToString : Severity → String
  | .low => "low"
  | .medium => "medium"
  | .high => "high"
  | .critical => "critical"

/-- validStatuses list of updateReportStatus (src/unnamed/part_002 lines 144-151). -/
def validStatuses : List String :=
  ["reported", "acknowledged", "in_progress", "resolved", "closed", "rejected"]

/-- Inverse of statusToString on the valid status strings. -/
def parseStatus (s : String) : Option Status :=
  if s = "reported" then some .reported
  else if s = "acknowledged" then some .acknowledged
  else if s = "in_progress" then some .in_progress
  else if s = "resolved" then some .resolved
  else if s = "closed" then some .closed
  else if s = "rejected" then some .rejected
  else none

/-- The trim of the JavaScript String prototype: strip leading and trailing
whitespace. (Structurally recursive so that concrete runs evaluate.) -/
def jsTrim (s : String) : String :=
  ⟨((s.data.dropWhile Char.isWhitespace).reverse.dropWhile Char.isWhitespace).reverse⟩

/-- JavaScript truthiness of an optional string: present and non-empty. -/
def strTruthy : Option String → Bool
  | none => false
  | some s => decide (s ≠ "")

/-- One entry of the append-only history log (Report.js lines 103-125).
The timestamp field is omitted from the embedding. -/
structure HistoryEntry where
  status : Status
  notes : String
  updatedBy : Option UserId
deriving DecidableEq

/-- One media attachment stored on a report (mediaSchema of Report.js). -/
structure MediaAttachment where
  kind : MediaKind
  url : String
  thumbnail : Option String
deriving DecidableEq

/-- A geographic point, location.coordinates of Report.js ([longitude, latitude]). -/
structure GeoPoint where
  lng : Rat
  lat : Rat
deriving DecidableEq

/-- The location subdocument of Report.js. -/
structure Location where
  point : GeoPoint
  name : String
deriving DecidableEq

/-- The Report document (reportSchema of src/models/Report.js). -/
structure Report where
  title : String
  description : String
  category : String
  severity : Severity
  status : Status
  user : Option UserId
  location : Location
  media : List MediaAttachment
  history : List HistoryEntry
  rejectionReason : Option String
  upvotes : Nat
  upvotedBy : List UserId
deriving DecidableEq

/-- The report collection: a partial map from report id to document. -/
abbrev Db := ReportId → Option Report

/-- Persist a document under an id (what a successful save writes back). -/
def Db.set (db : Db) (id : ReportId) (r : Report) : Db :=
  fun j => if j = id then some r else db j

/-- Mongoose document validation relevant to the verified claims: the
rejectionReason custom validator of Report.js lines 128-139 (the reason may
only be set when status is rejected) together with its maxlength 500. -/
def validateReport (r : Report) : Bool :=
  match r.rejectionReason with
  | none => true
  | some v => decide (v.length ≤ 500) && decide (r.status = Status.rejected)

/-- The save-time context the pre-save hook of Report.js reads: whether the
document is new, whether the status path was modified, and the
updatingUser stashed by setUpdatingUser (null when never set). -/
structure SaveCtx where
  isNew : Bool
  statusModified : Bool
  updatingUser : Option UserId

/-- The pre-save hook of Report.js lines 171-209: on a new document push the
creation entry (plus a rejection entry in the created-as-rejected case); on
a status change push exactly one entry whose note folds in the rejection
reason when status is rejected and a reason is set. -/
def preSaveHook (r : Report) (ctx : SaveCtx) : Report :=
  let updatedBy := ctx.updatingUser
  if ctx.isNew then
    let r1 := { r with history := r.history ++ [⟨r.status, "Report created", updatedBy⟩] }
    if r.status = Status.rejected ∧ strTruthy r.rejectionReason then
      { r1 with history := r1.history ++
          [⟨Status.rejected, "Rejection reason: " ++ r.rejectionReason.getD "", updatedBy⟩] }
    else r1
  else if ctx.statusModified then
    let notes :=
      if r.status = Status.rejected ∧ strTruthy r.rejectionReason then
        "Rejected: " ++ r.rejectionReason.getD ""
      else
        "Status changed to " ++ statusToString r.status
    { r with history := r.history ++ [⟨r.status, notes, updatedBy⟩] }
  else r

/-- Document save: mongoose validation followed by the pre-save hook; a
validation failure surfaces as a thrown error (none). -/
def saveReport (r : Report) (ctx : SaveCtx) : Option Report :=
  if validateReport r then some (preSaveHook r ctx) else none

/-- calculateSeverity of src/controllers/reportController.js lines 255-260. -/
def calculateSeverity (originalSeverity : Severity) (upvoteCount : Nat) : Severity :=
  if 20 ≤ upvoteCount then .critical
  else if 10 ≤ upvoteCount then .high
  else if 5 ≤ upvoteCount ∧ originalSeverity = Severity.low then .medium
  else originalSeverity

/-- Error taxonomy of the controller error responses used by the claims. -/
inductive ApiError where
  | invalidStatus
  | notFound
  | alreadyInStatus
  | reasonRequired
  | reasonTooShort
  | reasonTooLong
  | alreadyRejected
  | serverError
deriving DecidableEq

/-- Outcome the external store resolves a single successful upload with
(uploadImage / uploadVideo / uploadAudio of the media service). -/
structure UploadResult where
  url : String
  thumbnailUrl : String
  publicId : String
deriving DecidableEq

/-- One file of the request batch together with the outcome the external
store would give it: none means this upload fails (rejects). -/
structure UploadFile where
  name : String
  outcome : Option UploadResult
deriving DecidableEq

/-- req.files as the upload middleware delivers them: images, videos, audio. -/
structure Files where
  images : List UploadFile
  videos : List UploadFile
  audio : List UploadFile
deriving DecidableEq

/-- One element of the mediaArray built by uploadReportMedia. -/
structure MediaItem where
  kind : MediaKind
  url : String
  thumbnail : Option String
  publicId : String
deriving DecidableEq

/-- The mediaArray entry pushed for one successful upload: audio entries
carry no thumbnail (media service lines 211-246). -/
def mediaItemOf (k : MediaKind) (r : UploadResult) : MediaItem :=
  ⟨k, r.url, if k = MediaKind.audio then none else some r.thumbnailUrl, r.publicId⟩

/-- deleteMedia of the media service: best-effort delete against the external
store, whose success per public id is the deleteOk oracle. -/
def deleteMedia (deleteOk : String → Bool) (publicId : String) : Bool :=
  deleteOk publicId

/-- deleteMultipleMedia of the media service lines 176-194: delete each in
order, collecting succeeded and failed public ids. -/
def deleteMultipleMedia (deleteOk : String → Bool) :
    List (String × MediaKind) → List String × List String
  | [] => ([], [])
  | m :: rest =>
    let d := deleteMedia deleteOk m.1
    let res := deleteMultipleMedia deleteOk rest
    if d then (m.1 :: res.1, res.2) else (res.1, m.1 :: res.2)

/-- The order uploadReportMedia processes the batch in: all images, then all
videos, then all audio files (media service lines 207-248). -/
def taggedFiles (files : Files) : List (MediaKind × UploadFile) :=
  files.images.map (fun f => (MediaKind.image, f)) ++
    files.videos.map (fun f => (MediaKind.video, f)) ++
    files.audio.map (fun f => (MediaKind.audio, f))

/-- What a failed upload batch reports: the public ids rollback was invoked
on, and how the best-effort deletes went. -/
structure UploadFailure where
  attempted : List (String × MediaKind)
  deleted : List String
  failedDeletes : List String
deriving DecidableEq

/-- The sequential upload loop of uploadReportMedia: stop at the first
failing upload, carrying the accumulated mediaArray and uploadedPublicIds;
the error value is the uploadedPublicIds visible to the catch block. -/
def uploadLoop : List (MediaKind × UploadFile) → List MediaItem →
    List (String × MediaKind) →
    Except (List (String × MediaKind)) (List MediaItem × List (String × MediaKind))
  | [], media, ids => .ok (media, ids)
  | (k, f) :: rest, media, ids =>
    match f.outcome with
    | none => .error ids
    | some r => uploadLoop rest (media ++ [mediaItemOf k r]) (ids ++ [(r.publicId, k)])

/-- uploadReportMedia of the media service lines 202-259: upload every file
in batch order; on any failure delete all already-uploaded files
(compensating rollback) and rethrow. -/
def uploadReportMedia (deleteOk : String → Bool) (files : Files) :
    Except UploadFailure (List MediaItem × List (String × MediaKind)) :=
  match uploadLoop (taggedFiles files) [] [] with
  | .ok r => .ok r
  | .error uploaded =>
    let res := deleteMultipleMedia deleteOk uploaded
    .error ⟨uploaded, res.1, res.2⟩

/-- Errors createReport can answer with. -/
inductive CreateError where
  | mediaUpload (e : UploadFailure)
  | serverError
deriving DecidableEq

/-- The request body of createReport. -/
structure CreateInput where
  title : String
  description : String
  category : String
  severity : Severity
  location : Location
deriving DecidableEq

/-- createReport of src/controllers/reportController.js lines 10-82: build
the document, upload all media (answering a single media-upload failure if
that throws, without persisting anything), attach the media urls, set the
updating user and save. -/
def createReport (db : Db) (newId : ReportId) (deleteOk : String → Bool)
    (input : CreateInput) (files : Files) (userId : UserId) :
    Except CreateError (Db × Report) :=
  let report : Report :=
    { title := jsTrim input.title
      description := jsTrim input.description
      category := input.category
      severity := input.severity
      status := .reported
      user := some userId
      location := input.location
      media := []
      history := []
      rejectionReason := none
      upvotes := 0
      upvotedBy := [] }
  match uploadReportMedia deleteOk files with
  | .error e => .error (.mediaUpload e)
  | .ok uploadRes =>
    let report := { report with
      media := uploadRes.1.map (fun m => ⟨m.kind, m.url, m.thumbnail⟩) }
    match saveReport report ⟨true, false, some userId⟩ with
    | none => .error .serverError
    | some saved => .ok (Db.set db newId saved, saved)

/-- updateReportStatus of src/unnamed/part_002 lines 137-220: reject an
invalid status value, a missing report, and a no-op status change; otherwise
set the status, push a notes entry when notes were supplied, and save. -/
def updateReportStatus (db : Db) (reportId : ReportId) (status : String)
    (notes : Option String) (adminId : UserId) : Except ApiError (Db × Report) :=
  if validStatuses.contains status = false then .error .invalidStatus
  else
    match db reportId with
    | none => .error .notFound
    | some report =>
      if statusToString report.status = status then .error .alreadyInStatus
      else
        match parseStatus status with
        | none => .error .invalidStatus
        | some st =>
          let modified : Bool := decide (st ≠ report.status)
          let r1 := { report with status := st }
          let r2 :=
            if strTruthy notes then
              { r1 with history :=
                  r1.history ++ [⟨st, jsTrim (notes.getD ""), some adminId⟩] }
            else r1
          match saveReport r2 ⟨false, modified, some adminId⟩ with
          | none => .error .serverError
          | some saved => .ok (Db.set db reportId saved, saved)

/-- rejectReport of src/unnamed/part_002 lines 227-308: validate the reason
(present, trimmed length within [10, 500]), reject a missing report and an
already-rejected report, then set rejected status and the trimmed reason
and save. -/
def rejectReport (db : Db) (reportId : ReportId) (reason : Option String)
    (adminId : UserId) : Except ApiError (Db × Report) :=
  if strTruthy reason = false then .error .reasonRequired
  else
    let reason := reason.getD ""
    if (jsTrim reason).length < 10 then .error .reasonTooShort
    else if 500 < (jsTrim reason).length then .error .reasonTooLong
    else
      match db reportId with
      | none => .error .notFound
      | some report =>
        if report.status = Status.rejected then .error .alreadyRejected
        else
          let r1 := { report with
            status := Status.rejected
            rejectionReason := some (jsTrim reason) }
          match saveReport r1 ⟨false, true, some adminId⟩ with
          | none => .error .serverError
          | some saved => .ok (Db.set db reportId saved, saved)

/-- What the upvote endpoint answers on success. -/
structure UpvoteResp where
  upvotes : Nat
  severity : Severity
  hasUpvoted : Bool
  severityUpgraded : Bool
deriving DecidableEq

/-- The in-memory mutation of upvoteReport (controller lines 283-311):
toggle membership and counter (floored at 0), recompute severity from the
stored severity and the new count, and on a severity change push one
system-attributed history entry. Returns the mutated document, the prior
membership flag and the recomputed severity. -/
def upvoteStep (report : Report) (userId : UserId) : Report × Bool × Severity :=
  let hasUpvoted := report.upvotedBy.contains userId
  let r1 :=
    if hasUpvoted then
      { report with
        upvotedBy := report.upvotedBy.filter (fun id => !(id == userId))
        upvotes := report.upvotes - 1 }
    else
      { report with
        upvotedBy := report.upvotedBy ++ [userId]
        upvotes := report.upvotes + 1 }
  let newSeverity := calculateSeverity r1.severity r1.upvotes
  let r2 :=
    if newSeverity = r1.severity then r1
    else
      { r1 with
        severity := newSeverity
        history := r1.history ++
          [⟨r1.status,
            "Severity upgraded to " ++ severityToString newSeverity ++
              " due to " ++ toString r1.upvotes ++ " upvotes",
            none⟩] }
  (r2, hasUpvoted, newSeverity)

/-- upvoteReport of src/controllers/reportController.js lines 267-335: find
the report, apply the toggle mutation, save without setting an updating
user, and answer the new counts and flags. -/
def upvoteReport (db : Db) (reportId : ReportId) (userId : UserId) :
    Except ApiError (Db × UpvoteResp) :=
  match db reportId with
  | none => .error .notFound
  | some report =>
    let s := upvoteStep report userId
    match saveReport s.1 ⟨false, false, none⟩ with
    | none => .error .serverError
    | some saved =>
      .ok (Db.set db reportId saved,
        ⟨saved.upvotes, saved.severity, !s.2.1, decide (s.2.2 ≠ report.severity)⟩)

/-- The query parameters of the nearby endpoint, already parsed to numbers;
none means the parameter was absent from the request. -/
structure NearbyQuery where
  lat : Option Rat
  lng : Option Rat
  radius : Option Int
  limit : Option Int
deriving DecidableEq

/-- Latitude checks of validateNearbyQuery (validator lines 190-202). -/
def latErrors : Option Rat → List String
  | none => ["Latitude (lat) is required"]
  | some a =>
    if a < -90 ∨ 90 < a then ["Latitude must be between -90 and 90"] else []

/-- Longitude checks of validateNearbyQuery (validator lines 204-216). -/
def lngErrors : Option Rat → List String
  | none => ["Longitude (lng) is required"]
  | some b =>
    if b < -180 ∨ 180 < b then ["Longitude must be between -180 and 180"] else []

/-- Radius checks of validateNearbyQuery (validator lines 218-230); an
absent radius is defaulted, not an error. -/
def radiusErrors : Option Int → List String
  | none => []
  | some v =>
    if v < 100 ∨ 50000 < v then ["Radius must be between 100 and 50000 meters"] else []

/-- Limit checks of validateNearbyQuery (validator lines 232-244). -/
def limitErrors : Option Int → List String
  | none => []
  | some v =>
    if v < 1 ∨ 100 < v then ["Limit must be between 1 and 100"] else []

/-- All errors validateNearbyQuery accumulates, in source order. -/
def nearbyErrors (q : NearbyQuery) : List String :=
  latErrors q.lat ++ lngErrors q.lng ++ radiusErrors q.radius ++ limitErrors q.limit

/-- The data object validateNearbyQuery builds: supplied values, with radius
defaulted to 5000 and limit defaulted to 100. -/
structure NearbyData where
  lat : Rat
  lng : Rat
  radius : Int
  limit : Int
deriving DecidableEq

def nearbyData (q : NearbyQuery) : NearbyData :=
  ⟨q.lat.getD 0, q.lng.getD 0, q.radius.getD 5000, q.limit.getD 100⟩

/-- The geospatial query getNearbyReports hands to the database: a $near
query centered at [lng, lat] with $maxDistance radius, limited to limit
documents (controller lines 200-226). -/
structure GeoRequest where
  centerLng : Rat
  centerLat : Rat
  maxDistance : Int
  limit : Int
deriving DecidableEq

/-- getNearbyReports of src/controllers/reportController.js lines 183-247:
answer a validation error when validateNearbyQuery found any, otherwise run
the geospatial query with exactly the validated data and echo the query.
The database engine is the run parameter, so that the validation step is
visibly independent of it. -/
def getNearbyReports (run : GeoRequest → List Report) (q : NearbyQuery) :
    Except (List String) (List Report × GeoRequest) :=
  if nearbyErrors q = [] then
    let d := nearbyData q
    let req : GeoRequest := ⟨d.lng, d.lat, d.radius, d.limit⟩
    .ok (run req, req)
  else .error (nearbyErrors q)

/-- The pagination object the list endpoints answer with. -/
structure Pagination where
  page : Nat
  limit : Nat
  total : Nat
  pages : Nat
deriving DecidableEq

/-- Math.ceil(total / limit) over the naturals, as computed by getMyReports
line 128 and getAllReports line 117 for a positive integer limit. -/
def jsCeilDiv (total limit : Nat) : Nat :=
  (total + limit - 1) / limit

/-- The pagination core shared by getMyReports (controller lines 106-129)
and getAllReports: skip (page-1)*limit matching documents, take limit of
them, and report total and pages over the full matching set. -/
def paginateReports (matching : List Report) (page limit : Nat) :
    List Report × Pagination :=
  let skip := (page - 1) * limit
  let items := (matching.drop skip).take limit
  let total := matching.length
  (items, ⟨page, limit, total, jsCeilDiv total limit⟩)

/-- The post-toggle upvote count of upvoteReport (controller lines 285-293). -/
def toggleCount (r : Report) (u : UserId) : Nat :=
  if r.upvotedBy.contains u then r.upvotes - 1 else r.upvotes + 1

/-- The document a successful status update persists when the stored
document carries no rejection reason: new status, plus the notes entry the
controller pushes when notes are supplied, plus the entry the pre-save hook
pushes for the status change. -/
def updateStatusResult (r : Report) (st : Status) (notes : Option String)
    (admin : UserId) : Report :=
  { r with
    status := st
    history :=
      (if strTruthy notes then r.history ++ [⟨st, jsTrim (notes.getD ""), some admin⟩]
        else r.history) ++
        [⟨st, "Status changed to " ++ statusToString st, some admin⟩] }

/-- The document a successful rejection persists: rejected status, the
trimmed reason, and the one combined history entry the pre-save hook pushes. -/
def rejectResult (r : Report) (reason : String) (admin : UserId) : Report :=
  { r with
    status := Status.rejected
    rejectionReason := some (jsTrim reason)
    history := r.history ++
      [⟨Status.rejected, "Rejected: " ++ jsTrim reason, some admin⟩] }

/-- Concrete fixture: a location used by the concrete runs below. -/
def sampleLocation : Location := ⟨⟨77, 28⟩, "Main Street"⟩

/-- Concrete fixture: a freshly created report in its post-creation state. -/
def baseReport : Report :=
  { title := "Pothole on main road"
    description := "Large pothole causing trouble for commuters"
    category := "public_works"
    severity := .low
    status := .reported
    user := some 1
    location := sampleLocation
    media := [⟨.image, "http://cdn/img.jpg", some "http://cdn/thumb.jpg"⟩]
    history := [⟨.reported, "Report created", some 1⟩]
    rejectionReason := none
    upvotes := 0
    upvotedBy := [] }

/-- Concrete fixture: a collection holding only baseReport under id 0. -/
def baseDb : Db := fun j => if j = 0 then some baseReport else none

/-- Concrete fixture: a low-severity report with four upvotes. -/
def lowReport4 : Report := { baseReport with upvotes := 4, upvotedBy := [10, 11, 12, 13] }

/-- Concrete fixture: a collection holding only lowReport4 under id 0. -/
def lowDb4 : Db := fun j => if j = 0 then some lowReport4 else none

/-- Concrete fixture: an image whose upload the store accepts. -/
def fileA : UploadFile := ⟨"a.jpg", some ⟨"http://cdn/a.jpg", "http://cdn/a-thumb.jpg", "pid-a"⟩⟩

/-- Concrete fixture: a video whose upload the store accepts. -/
def fileB : UploadFile := ⟨"b.mp4", some ⟨"http://cdn/b.mp4", "http://cdn/b-frame.jpg", "pid-b"⟩⟩

/-- Concrete fixture: an audio file whose upload the store rejects. -/
def fileBad : UploadFile := ⟨"c.mp3", none⟩

/-- Concrete fixture: a batch whose third file fails to upload. -/
def failingBatch : Files := ⟨[fileA], [fileB], [fileBad]⟩

/-- Concrete fixture: a creation request body. -/
def sampleInput : CreateInput :=
  ⟨"Pothole on main road", "Large pothole causing trouble", "public_works", .low,
    sampleLocation⟩

/-
Shared machinery lemmas about the embedded operations.
-/

theorem contains_toString (st : Status) :
    validStatuses.contains (statusToString st) = true := by
  cases st <;> rfl

theorem mem_validStatuses_toString (st : Status) :
    statusToString st ∈ validStatuses := by
  have := contains_toString st
  simpa using this

theorem parseStatus_toString (st : Status) :
    parseStatus (statusToString st) = some st := by
  cases st <;> rfl

theorem statusToString_inj : ∀ a b : Status, statusToString a = statusToString b → a = b := by
  decide

theorem preSaveHook_noop (r : Report) (u : Option UserId) :
    preSaveHook r ⟨false, false, u⟩ = r := rfl

theorem strTruthy_none : strTruthy none = false := rfl

theorem updateStatus_ok (db : Db) (id : ReportId) (st : Status) (r : Report)
    (notes : Option String) (admin : UserId)
    (hfind : db id = some r) (hne : st ≠ r.status) (hrr : r.rejectionReason = none) :
    updateReportStatus db id (statusToString st) notes admin =
      .ok (Db.set db id (updateStatusResult r st notes admin),
        updateStatusResult r st notes admin) := by
  have hc : statusToString st ∈ validStatuses := mem_validStatuses_toString st
  have hne2 : ¬ (statusToString r.status = statusToString st) := by
    intro h
    exact hne (statusToString_inj _ _ h).symm
  by_cases hn : strTruthy notes <;>
    simp [updateReportStatus, hc, hfind, hne2, parseStatus_toString, hn,
      saveReport, validateReport, hrr, preSaveHook, hne, strTruthy_none,
      updateStatusResult]

theorem upvoteStep_flag (r : Report) (u : UserId) :
    (upvoteStep r u).2.1 = r.upvotedBy.contains u := by
  simp only [upvoteStep]

theorem upvoteStep_status (r : Report) (u : UserId) :
    (upvoteStep r u).1.status = r.status := by
  simp only [upvoteStep]
  by_cases hc : r.upvotedBy.contains u = true <;> simp [hc] <;> (repeat' split) <;> simp_all

theorem upvoteStep_reason (r : Report) (u : UserId) :
    (upvoteStep r u).1.rejectionReason = r.rejectionReason := by
  simp only [upvoteStep]
  by_cases hc : r.upvotedBy.contains u = true <;> simp [hc] <;> (repeat' split) <;> simp_all

theorem upvoteStep_upvotes (r : Report) (u : UserId) :
    (upvoteStep r u).1.upvotes = toggleCount r u := by
  simp only [upvoteStep, toggleCount]
  by_cases hc : r.upvotedBy.contains u = true <;> simp [hc] <;> (repeat' split) <;> simp_all

theorem upvoteStep_severity (r : Report) (u : UserId) :
    (upvoteStep r u).1.severity = calculateSeverity r.severity (toggleCount r u) := by
  simp only [upvoteStep, toggleCount]
  by_cases hc : r.upvotedBy.contains u = true <;> simp [hc] <;> (repeat' split) <;> simp_all

theorem upvoteStep_newSeverity (r : Report) (u : UserId) :
    (upvoteStep r u).2.2 = calculateSeverity r.severity (toggleCount r u) := by
  simp only [upvoteStep, toggleCount]
  by_cases hc : r.upvotedBy.contains u = true <;> simp [hc] <;> (repeat' split) <;> simp_all

theorem upvoteStep_upvotedBy (r : Report) (u : UserId) :
    (upvoteStep r u).1.upvotedBy =
      (if r.upvotedBy.contains u then r.upvotedBy.filter (fun id => !(id == u))
        else r.upvotedBy ++ [u]) := by
  simp only [upvoteStep]
  by_cases hc : r.upvotedBy.contains u = true <;> simp [hc] <;> (repeat' split) <;> simp_all

theorem upvoteStep_history (r : Report) (u : UserId) :
    (upvoteStep r u).1.history =
      (if calculateSeverity r.severity (toggleCount r u) = r.severity then r.history
        else r.history ++
          [⟨r.status,
            "Severity upgraded to " ++
                severityToString (calculateSeverity r.severity (toggleCount r u)) ++
              " due to " ++ toString (toggleCount r u) ++ " upvotes",
            none⟩]) := by
  simp only [upvoteStep, toggleCount]
  by_cases hc : r.upvotedBy.contains u = true <;> simp [hc] <;> (repeat' split) <;> simp_all

theorem validateReport_eq_of (r1 r2 : Report)
    (h1 : r1.rejectionReason = r2.rejectionReason) (h2 : r1.status = r2.status) :
    validateReport r1 = validateReport r2 := by
  unfold validateReport
  rw [h1, h2]

theorem validateReport_upvoteStep (r : Report) (u : UserId) :
    validateReport (upvoteStep r u).1 = validateReport r :=
  validateReport_eq_of _ _ (upvoteStep_reason r u) (upvoteStep_status r u)

theorem upvoteReport_ok (db : Db) (id : ReportId) (u : UserId) (r : Report)
    (hfind : db id = some r) (hval : validateReport r = true) :
    upvoteReport db id u =
      .ok (Db.set db id (upvoteStep r u).1,
        ⟨(upvoteStep r u).1.upvotes, (upvoteStep r u).1.severity,
          !(upvoteStep r u).2.1, decide ((upvoteStep r u).2.2 ≠ r.severity)⟩) := by
  unfold upvoteReport
  rw [hfind]
  simp [saveReport, validateReport_upvoteStep, hval, preSaveHook_noop]

theorem rejectReport_ok (db : Db) (id : ReportId) (r : Report) (reason : String)
    (admin : UserId) (hfind : db id = some r) (hnr : r.status ≠ Status.rejected)
    (h10 : 10 ≤ (jsTrim reason).length) (h500 : (jsTrim reason).length ≤ 500) :
    rejectReport db id (some reason) admin =
      .ok (Db.set db id (rejectResult r reason admin), rejectResult r reason admin) := by
  have hne : reason ≠ "" := by
    intro h
    rw [h] at h10
    exact absurd h10 (by decide)
  have htne : jsTrim reason ≠ "" := by
    intro h
    rw [h] at h10
    exact absurd h10 (by decide)
  have h1 : ¬ ((jsTrim reason).length < 10) := by omega
  have h2 : ¬ (500 < (jsTrim reason).length) := by omega
  simp [rejectReport, strTruthy, hne, h1, h2, hfind, hnr, saveReport,
    validateReport, h500, preSaveHook, htne, rejectResult]

theorem contains_append_self (l : List UserId) (u : UserId) :
    (l ++ [u]).contains u = true := by
  simp

theorem contains_filter_ne (l : List UserId) (u : UserId) :
    (l.filter (fun id => !(id == u))).contains u = false := by
  simp

theorem upvoteStep_contains_flip (r : Report) (u : UserId) :
    (upvoteStep r u).1.upvotedBy.contains u = !(r.upvotedBy.contains u) := by
  rw [upvoteStep_upvotedBy]
  cases hc : r.upvotedBy.contains u <;>
    simp [hc, contains_append_self, contains_filter_ne]


/-- C6: updateStatus with the current status always fails and never appends
history or changes state; a status outside the six valid values fails; and
an absent report id fails with a not-found error. -/
theorem C6_update_status_failures :
    (∀ (db : Db) (id : ReportId) (r : Report) (notes : Option String) (admin : UserId),
      db id = some r →
      updateReportStatus db id (statusToString r.status) notes admin =
        .error .alreadyInStatus) ∧
    (∀ (db : Db) (id : ReportId) (s : String) (notes : Option String) (admin : UserId),
      validStatuses.contains s = false →
      updateReportStatus db id s notes admin = .error .invalidStatus) ∧
    (∀ (db : Db) (id : ReportId) (s : String) (notes : Option String) (admin : UserId),
      validStatuses.contains s = true → db id = none →
      updateReportStatus db id s notes admin = .error .notFound) := by
  refine ⟨?_, ?_, ?_⟩
  · intro db id r notes admin hfind
    simp [updateReportStatus, mem_validStatuses_toString r.status, hfind]
  · intro db id s notes admin hs
    have hs2 : s ∉ validStatuses := by simpa using hs
    simp [updateReportStatus, hs2]
  · intro db id s notes admin hs hfind
    have hs2 : s ∈ validStatuses := by simpa using hs
    simp [updateReportStatus, hs2, hfind]

/-- C6 witness: the three failure modes at concrete inputs. -/
theorem C6_witness :
    (baseDb 0 = some baseReport ∧
      updateReportStatus baseDb 0 (statusToString baseReport.status) (some "note") 7 =
        .error .alreadyInStatus) ∧
    (validStatuses.contains "bogus" = false ∧
      updateReportStatus baseDb 1 "bogus" none 7 = .error .invalidStatus) ∧
    (validStatuses.contains "closed" = true ∧ baseDb 1 = none ∧
      updateReportStatus baseDb 1 "closed" none 7 = .error .notFound) :=
  ⟨⟨rfl, C6_update_status_failures.1 baseDb 0 baseReport (some "note") 7 rfl⟩,
    ⟨rfl, C6_update_status_failures.2.1 baseDb 1 "bogus" none 7 rfl⟩,
    ⟨rfl, rfl, C6_update_status_failures.2.2 baseDb 1 "closed" none 7 rfl rfl⟩⟩

/-- C2 counterexample: an admin status update that supplies notes appends
two history entries, not one (the notes entry pushed by the controller and
the status-change entry pushed by the pre-save hook). -/
theorem C2_counterexample :
    baseReport.history.length = 1 ∧
    ∃ p : Db × Report,
      updateReportStatus baseDb 0 "acknowledged" (some "checked on site") 7 = .ok p ∧
      p.2.history.length = 3 :=
  ⟨rfl, _, rfl, rfl⟩

/-- C2 amended: history is append-only; creation appends exactly one entry;
a status change without notes appends exactly one entry; a status change
with notes appends two entries (the notes entry, then the status-change
entry); rejection appends one combined entry; an upvote toggle appends at
most one entry. -/
theorem C2_amended_history_appends :
    (∀ (db : Db) (newId : ReportId) (deleteOk : String → Bool) (input : CreateInput)
        (files : Files) (userId : UserId) (out : Db × Report),
      createReport db newId deleteOk input files userId = .ok out →
      out.2.history = [⟨Status.reported, "Report created", some userId⟩]) ∧
    (∀ (db : Db) (id : ReportId) (st : Status) (r : Report) (notes : Option String)
        (admin : UserId),
      db id = some r → r.rejectionReason = none → st ≠ r.status →
      strTruthy notes = false →
      ∃ saved : Report,
        updateReportStatus db id (statusToString st) notes admin =
          .ok (Db.set db id saved, saved) ∧
        saved.history = r.history ++
          [⟨st, "Status changed to " ++ statusToString st, some admin⟩]) ∧
    (∀ (db : Db) (id : ReportId) (st : Status) (r : Report) (n : String) (admin : UserId),
      db id = some r → r.rejectionReason = none → st ≠ r.status → n ≠ "" →
      ∃ saved : Report,
        updateReportStatus db id (statusToString st) (some n) admin =
          .ok (Db.set db id saved, saved) ∧
        saved.history = r.history ++
          [⟨st, jsTrim n, some admin⟩,
            ⟨st, "Status changed to " ++ statusToString st, some admin⟩]) ∧
    (∀ (db : Db) (id : ReportId) (r : Report) (reason : String) (admin : UserId),
      db id = some r → r.status ≠ Status.rejected →
      10 ≤ (jsTrim reason).length → (jsTrim reason).length ≤ 500 →
      ∃ saved : Report,
        rejectReport db id (some reason) admin = .ok (Db.set db id saved, saved) ∧
        saved.history = r.history ++
          [⟨Status.rejected, "Rejected: " ++ jsTrim reason, some admin⟩]) ∧
    (∀ (db : Db) (id : ReportId) (u : UserId) (r : Report) (out : Db × UpvoteResp),
      db id = some r → upvoteReport db id u = .ok out →
      ∃ (R : Report) (t : List HistoryEntry),
        out.1 id = some R ∧ R.history = r.history ++ t ∧ t.length ≤ 1) := by
  refine ⟨?_, ?_, ?_, ?_, ?_⟩
  · intro db newId deleteOk input files userId out h
    unfold createReport at h
    cases hu : uploadReportMedia deleteOk files with
    | error e =>
      rw [hu] at h
      exact absurd h (by simp)
    | ok up =>
      rw [hu] at h
      simp only [saveReport, validateReport, preSaveHook, strTruthy_none] at h
      simp at h
      rw [← h]
  · intro db id st r notes admin hfind hrr hne hn
    refine ⟨updateStatusResult r st notes admin,
      updateStatus_ok db id st r notes admin hfind hne hrr, ?_⟩
    simp [updateStatusResult, hn]
  · intro db id st r n admin hfind hrr hne hn
    have hn2 : strTruthy (some n) = true := by simp [strTruthy, hn]
    refine ⟨updateStatusResult r st (some n) admin,
      updateStatus_ok db id st r (some n) admin hfind hne hrr, ?_⟩
    simp [updateStatusResult, hn2]
  · intro db id r reason admin hfind hnr h10 h500
    refine ⟨rejectResult r reason admin,
      rejectReport_ok db id r reason admin hfind hnr h10 h500, ?_⟩
    simp [rejectResult]
  · intro db id u r out hfind h
    by_cases hv : validateReport r = true
    · rw [upvoteReport_ok db id u r hfind hv] at h
      injection h with h
      subst h
      by_cases hch : calculateSeverity r.severity (toggleCount r u) = r.severity
      · exact ⟨(upvoteStep r u).1, [], by simp [Db.set],
          by rw [upvoteStep_history, if_pos hch, List.append_nil], by simp⟩
      · refine ⟨(upvoteStep r u).1,
          [⟨r.status,
            "Severity upgraded to " ++
                severityToString (calculateSeverity r.severity (toggleCount r u)) ++
              " due to " ++ toString (toggleCount r u) ++ " upvotes", none⟩],
          by simp [Db.set], ?_, by simp⟩
        rw [upvoteStep_history, if_neg hch]
    · exfalso
      have herr : upvoteReport db id u = .error .serverError := by
        have hv2 : validateReport (upvoteStep r u).1 = false := by
          rw [validateReport_upvoteStep]
          simpa using hv
        unfold upvoteReport
        rw [hfind]
        simp [saveReport, hv2]
      rw [herr] at h
      exact absurd h (by simp)

/-- C2 witness: the amended clauses at concrete inputs. -/
theorem C2_witness :
    (baseDb 0 = some baseReport ∧ baseReport.rejectionReason = none ∧
      Status.acknowledged ≠ baseReport.status ∧ strTruthy none = false ∧
      ∃ saved : Report,
        updateReportStatus baseDb 0 (statusToString .acknowledged) none 7 =
          .ok (Db.set baseDb 0 saved, saved) ∧
        saved.history = baseReport.history ++
          [⟨.acknowledged, "Status changed to " ++ statusToString .acknowledged, some 7⟩]) ∧
    (baseDb 0 = some baseReport ∧ baseReport.status ≠ Status.rejected ∧
      10 ≤ (jsTrim "duplicate of 42").length ∧ (jsTrim "duplicate of 42").length ≤ 500 ∧
      ∃ saved : Report,
        rejectReport baseDb 0 (some "duplicate of 42") 7 = .ok (Db.set baseDb 0 saved, saved) ∧
        saved.history = baseReport.history ++
          [⟨Status.rejected, "Rejected: " ++ jsTrim "duplicate of 42", some 7⟩]) :=
  ⟨⟨rfl, rfl, by decide, rfl,
      C2_amended_history_appends.2.1 baseDb 0 .acknowledged baseReport none 7 rfl rfl
        (by decide) rfl⟩,
    ⟨rfl, by decide, by decide, by decide,
      C2_amended_history_appends.2.2.2.1 baseDb 0 baseReport "duplicate of 42" 7 rfl
        (by decide) (by decide) (by decide)⟩⟩

/-- C3 counterexample: toggling twice from a low-severity report with four
upvotes leaves severity at medium, not back at low; upvotes do return. -/
theorem C3_counterexample :
    lowReport4.severity = Severity.low ∧
    ∃ p q : Db × UpvoteResp,
      upvoteReport lowDb4 0 5 = .ok p ∧
      upvoteReport p.1 0 5 = .ok q ∧
      q.2.upvotes = lowReport4.upvotes ∧
      q.2.severity = Severity.medium :=
  ⟨rfl, _, _, rfl, rfl, rfl, rfl⟩

/-- C3 amended: toggling twice by the same user restores the upvote count
and membership flag (hasUpvoted flips and flips back), but severity is
recomputed from the current severity each time and need not return to its
pre-toggle value. -/
theorem C3_amended_double_toggle (db : Db) (id : ReportId) (u : UserId) (r : Report)
    (hfind : db id = some r) (hval : validateReport r = true)
    (hcons : r.upvotedBy.contains u = true → 1 ≤ r.upvotes) :
    ∃ p q : Db × UpvoteResp,
      upvoteReport db id u = .ok p ∧
      upvoteReport p.1 id u = .ok q ∧
      p.2.hasUpvoted = !(r.upvotedBy.contains u) ∧
      q.2.hasUpvoted = r.upvotedBy.contains u ∧
      q.2.upvotes = r.upvotes := by
  set r1 := (upvoteStep r u).1 with hr1
  have h1 := upvoteReport_ok db id u r hfind hval
  have hfind2 : Db.set db id r1 id = some r1 := by simp [Db.set]
  have hval2 : validateReport r1 = true := by
    rw [hr1, validateReport_upvoteStep]
    exact hval
  have h2 := upvoteReport_ok (Db.set db id r1) id u r1 hfind2 hval2
  refine ⟨_, _, h1, h2, ?_, ?_, ?_⟩
  · show (!(upvoteStep r u).2.1) = (!(r.upvotedBy.contains u))
    rw [upvoteStep_flag]
  · show (!(upvoteStep r1 u).2.1) = r.upvotedBy.contains u
    rw [upvoteStep_flag, hr1, upvoteStep_contains_flip, Bool.not_not]
  · show (upvoteStep r1 u).1.upvotes = r.upvotes
    rw [upvoteStep_upvotes]
    unfold toggleCount
    rw [hr1, upvoteStep_contains_flip, upvoteStep_upvotes]
    unfold toggleCount
    cases hc : r.upvotedBy.contains u with
    | true =>
      have hu1 := hcons hc
      simp only [hc, Bool.not_true, Bool.false_eq_true, if_true, if_false, ite_true, ite_false]
      omega
    | false =>
      simp only [hc, Bool.not_false, Bool.false_eq_true, if_true, if_false, ite_true, ite_false]
      omega

/-- C3 witness: the amended double-toggle property at a concrete input. -/
theorem C3_witness :
    lowDb4 0 = some lowReport4 ∧ validateReport lowReport4 = true ∧
    (lowReport4.upvotedBy.contains 5 = true → 1 ≤ lowReport4.upvotes) ∧
    ∃ p q : Db × UpvoteResp,
      upvoteReport lowDb4 0 5 = .ok p ∧
      upvoteReport p.1 0 5 = .ok q ∧
      p.2.hasUpvoted = !(lowReport4.upvotedBy.contains 5) ∧
      q.2.hasUpvoted = lowReport4.upvotedBy.contains 5 ∧
      q.2.upvotes = lowReport4.upvotes :=
  ⟨rfl, rfl, by decide,
    C3_amended_double_toggle lowDb4 0 5 lowReport4 rfl rfl (by decide)⟩


/-- C4: on every upvote toggle, severity is recomputed as a pure function of
the post-toggle upvote count and the stored severity, with the cascade at
least 20 giving critical, at least 10 giving high, at least 5 with stored
low giving medium, otherwise unchanged; and the low-severity escalation
scenario crosses to medium at 5, high at 10 and critical at 20 upvotes,
appending exactly one system history entry at each crossing. -/
theorem C4_severity_escalation :
    (∀ (s : Severity) (n : Nat), 20 ≤ n → calculateSeverity s n = .critical) ∧
    (∀ (s : Severity) (n : Nat), 10 ≤ n → n < 20 → calculateSeverity s n = .high) ∧
    (∀ n : Nat, 5 ≤ n → n < 10 → calculateSeverity .low n = .medium) ∧
    (∀ (s : Severity) (n : Nat), n < 10 → ¬(5 ≤ n ∧ s = Severity.low) →
      calculateSeverity s n = s) ∧
    (∀ (db : Db) (id : ReportId) (u : UserId) (r : Report),
      db id = some r → validateReport r = true →
      ∃ out : Db × UpvoteResp,
        upvoteReport db id u = .ok out ∧
        out.2.severity = calculateSeverity r.severity out.2.upvotes) ∧
    (∀ (db : Db) (id : ReportId) (u : UserId) (r : Report),
      db id = some r → validateReport r = true →
      r.severity = Severity.low → r.upvotes = 4 → r.upvotedBy.contains u = false →
      ∃ out : Db × UpvoteResp,
        upvoteReport db id u = .ok out ∧
        out.2.upvotes = 5 ∧ out.2.severity = Severity.medium ∧
        ∃ R : Report, out.1 id = some R ∧
          R.history = r.history ++
            [⟨r.status, "Severity upgraded to medium due to 5 upvotes", none⟩]) ∧
    (∀ (db : Db) (id : ReportId) (u : UserId) (r : Report),
      db id = some r → validateReport r = true →
      r.severity = Severity.medium → r.upvotes = 9 → r.upvotedBy.contains u = false →
      ∃ out : Db × UpvoteResp,
        upvoteReport db id u = .ok out ∧
        out.2.upvotes = 10 ∧ out.2.severity = Severity.high ∧
        ∃ R : Report, out.1 id = some R ∧
          R.history = r.history ++
            [⟨r.status, "Severity upgraded to high due to 10 upvotes", none⟩]) ∧
    (∀ (db : Db) (id : ReportId) (u : UserId) (r : Report),
      db id = some r → validateReport r = true →
      r.severity = Severity.high → r.upvotes = 19 → r.upvotedBy.contains u = false →
      ∃ out : Db × UpvoteResp,
        upvoteReport db id u = .ok out ∧
        out.2.upvotes = 20 ∧ out.2.severity = Severity.critical ∧
        ∃ R : Report, out.1 id = some R ∧
          R.history = r.history ++
            [⟨r.status, "Severity upgraded to critical due to 20 upvotes", none⟩]) := by
  refine ⟨?_, ?_, ?_, ?_, ?_, ?_, ?_, ?_⟩
  · intro s n h
    simp [calculateSeverity, h]
  · intro s n h1 h2
    simp [calculateSeverity, h1, show ¬ (20 ≤ n) by omega]
  · intro n h1 h2
    simp [calculateSeverity, h1, show ¬ (20 ≤ n) by omega, show ¬ (10 ≤ n) by omega]
  · intro s n h1 h2
    simp [calculateSeverity, h2, show ¬ (20 ≤ n) by omega, show ¬ (10 ≤ n) by omega]
  · intro db id u r hfind hval
    refine ⟨_, upvoteReport_ok db id u r hfind hval, ?_⟩
    show (upvoteStep r u).1.severity = calculateSeverity r.severity (upvoteStep r u).1.upvotes
    rw [upvoteStep_severity, upvoteStep_upvotes]
  · intro db id u r hfind hval hsev hupv hc
    have hc2 : u ∉ r.upvotedBy := by simpa using hc
    have htc : toggleCount r u = 5 := by simp [toggleCount, hc2, hupv]
    have hcalc : calculateSeverity r.severity (toggleCount r u) = Severity.medium := by
      rw [htc, hsev]
      decide
    refine ⟨_, upvoteReport_ok db id u r hfind hval, ?_, ?_, ?_⟩
    · show (upvoteStep r u).1.upvotes = 5
      rw [upvoteStep_upvotes, htc]
    · show (upvoteStep r u).1.severity = Severity.medium
      rw [upvoteStep_severity, hcalc]
    · refine ⟨(upvoteStep r u).1, by simp [Db.set], ?_⟩
      have hstr : "Severity upgraded to " ++ severityToString Severity.medium ++
          " due to " ++ toString (5 : Nat) ++ " upvotes" =
          "Severity upgraded to medium due to 5 upvotes" := by decide
      rw [upvoteStep_history, if_neg (by rw [hcalc, hsev]; decide), hcalc, htc, hstr]
  · intro db id u r hfind hval hsev hupv hc
    have hc2 : u ∉ r.upvotedBy := by simpa using hc
    have htc : toggleCount r u = 10 := by simp [toggleCount, hc2, hupv]
    have hcalc : calculateSeverity r.severity (toggleCount r u) = Severity.high := by
      rw [htc, hsev]
      decide
    refine ⟨_, upvoteReport_ok db id u r hfind hval, ?_, ?_, ?_⟩
    · show (upvoteStep r u).1.upvotes = 10
      rw [upvoteStep_upvotes, htc]
    · show (upvoteStep r u).1.severity = Severity.high
      rw [upvoteStep_severity, hcalc]
    · refine ⟨(upvoteStep r u).1, by simp [Db.set], ?_⟩
      have hstr : "Severity upgraded to " ++ severityToString Severity.high ++
          " due to " ++ toString (10 : Nat) ++ " upvotes" =
          "Severity upgraded to high due to 10 upvotes" := by decide
      rw [upvoteStep_history, if_neg (by rw [hcalc, hsev]; decide), hcalc, htc, hstr]
  · intro db id u r hfind hval hsev hupv hc
    have hc2 : u ∉ r.upvotedBy := by simpa using hc
    have htc : toggleCount r u = 20 := by simp [toggleCount, hc2, hupv]
    have hcalc : calculateSeverity r.severity (toggleCount r u) = Severity.critical := by
      rw [htc, hsev]
      decide
    refine ⟨_, upvoteReport_ok db id u r hfind hval, ?_, ?_, ?_⟩
    · show (upvoteStep r u).1.upvotes = 20
      rw [upvoteStep_upvotes, htc]
    · show (upvoteStep r u).1.severity = Severity.critical
      rw [upvoteStep_severity, hcalc]
    · refine ⟨(upvoteStep r u).1, by simp [Db.set], ?_⟩
      have hstr : "Severity upgraded to " ++ severityToString Severity.critical ++
          " due to " ++ toString (20 : Nat) ++ " upvotes" =
          "Severity upgraded to critical due to 20 upvotes" := by decide
      rw [upvoteStep_history, if_neg (by rw [hcalc, hsev]; decide), hcalc, htc, hstr]

/-- C4 witness: the 4 to 5 crossing at a concrete input, plus the cascade at
concrete counts. -/
theorem C4_witness :
    (20 ≤ 25 ∧ calculateSeverity .high 25 = .critical) ∧
    (10 ≤ 12 ∧ 12 < 20 ∧ calculateSeverity .critical 12 = .high) ∧
    (5 ≤ 7 ∧ 7 < 10 ∧ calculateSeverity .low 7 = .medium) ∧
    (3 < 10 ∧ ¬(5 ≤ 3 ∧ Severity.medium = Severity.low) ∧
      calculateSeverity .medium 3 = .medium) ∧
    (lowDb4 0 = some lowReport4 ∧ validateReport lowReport4 = true ∧
      lowReport4.severity = Severity.low ∧ lowReport4.upvotes = 4 ∧
      lowReport4.upvotedBy.contains 5 = false ∧
      ∃ out : Db × UpvoteResp,
        upvoteReport lowDb4 0 5 = .ok out ∧
        out.2.upvotes = 5 ∧ out.2.severity = Severity.medium ∧
        ∃ R : Report, out.1 0 = some R ∧
          R.history = lowReport4.history ++
            [⟨lowReport4.status, "Severity upgraded to medium due to 5 upvotes", none⟩]) :=
  ⟨⟨by decide, C4_severity_escalation.1 .high 25 (by decide)⟩,
    ⟨by decide, by decide, C4_severity_escalation.2.1 .critical 12 (by decide) (by decide)⟩,
    ⟨by decide, by decide, C4_severity_escalation.2.2.1 7 (by decide) (by decide)⟩,
    ⟨by decide, by decide, C4_severity_escalation.2.2.2.1 .medium 3 (by decide) (by decide)⟩,
    rfl, rfl, rfl, rfl, rfl,
    C4_severity_escalation.2.2.2.2.2.1 lowDb4 0 5 lowReport4 rfl rfl rfl rfl rfl⟩

/-- C5: when an upvote toggle changes the recomputed severity, the appended
history entry carries the unchanged current status, the severity-upgrade
notes string, and a null (system) updatedBy, never the acting user. -/
theorem C5_system_attributed_severity_history (db : Db) (id : ReportId) (u : UserId)
    (r : Report) (hfind : db id = some r) (hval : validateReport r = true)
    (hchanged : calculateSeverity r.severity (toggleCount r u) ≠ r.severity) :
    ∃ (out : Db × UpvoteResp) (R : Report),
      upvoteReport db id u = .ok out ∧
      out.1 id = some R ∧
      R.status = r.status ∧
      R.history = r.history ++
        [⟨r.status,
          "Severity upgraded to " ++
              severityToString (calculateSeverity r.severity (toggleCount r u)) ++
            " due to " ++ toString (toggleCount r u) ++ " upvotes",
          none⟩] ∧
      out.2.severityUpgraded = true := by
  refine ⟨_, (upvoteStep r u).1, upvoteReport_ok db id u r hfind hval,
    by simp [Db.set], upvoteStep_status r u, ?_, ?_⟩
  · rw [upvoteStep_history, if_neg hchanged]
  · show decide ((upvoteStep r u).2.2 ≠ r.severity) = true
    rw [upvoteStep_newSeverity]
    simpa using hchanged

/-- C5 witness: the severity-change history entry at a concrete input. -/
theorem C5_witness :
    lowDb4 0 = some lowReport4 ∧ validateReport lowReport4 = true ∧
    calculateSeverity lowReport4.severity (toggleCount lowReport4 5) ≠ lowReport4.severity ∧
    ∃ (out : Db × UpvoteResp) (R : Report),
      upvoteReport lowDb4 0 5 = .ok out ∧
      out.1 0 = some R ∧
      R.status = lowReport4.status ∧
      R.history = lowReport4.history ++
        [⟨lowReport4.status,
          "Severity upgraded to " ++
              severityToString (calculateSeverity lowReport4.severity (toggleCount lowReport4 5)) ++
            " due to " ++ toString (toggleCount lowReport4 5) ++ " upvotes",
          none⟩] ∧
      out.2.severityUpgraded = true :=
  ⟨rfl, rfl, by decide,
    C5_system_attributed_severity_history lowDb4 0 5 lowReport4 rfl rfl (by decide)⟩


/-- C7 counterexample: a reason with surrounding whitespace is accepted but
stored trimmed, so rejectionReason is not the given reason. -/
theorem C7_counterexample :
    ∃ p : Db × Report,
      rejectReport baseDb 0 (some " 0123456789") 9 = .ok p ∧
      p.2.rejectionReason = some "0123456789" ∧
      some " 0123456789" ≠ p.2.rejectionReason :=
  ⟨_, rfl, rfl, by decide⟩

/-- C7 amended: rejectReport fails validation when the trimmed reason is
shorter than 10 or longer than 500 characters, fails on an already-rejected
report, and on success sets status to rejected and rejectionReason to the
trimmed reason. -/
theorem C7_amended_reject_validation :
    (∀ (db : Db) (id : ReportId) (reason : String) (admin : UserId),
      (jsTrim reason).length < 10 →
      ∃ e : ApiError, rejectReport db id (some reason) admin = .error e) ∧
    (∀ (db : Db) (id : ReportId) (reason : String) (admin : UserId),
      500 < (jsTrim reason).length →
      rejectReport db id (some reason) admin = .error .reasonTooLong) ∧
    (∀ (db : Db) (id : ReportId) (r : Report) (reason : String) (admin : UserId),
      db id = some r → r.status = Status.rejected →
      10 ≤ (jsTrim reason).length → (jsTrim reason).length ≤ 500 →
      rejectReport db id (some reason) admin = .error .alreadyRejected) ∧
    (∀ (db : Db) (id : ReportId) (r : Report) (reason : String) (admin : UserId),
      db id = some r → r.status ≠ Status.rejected →
      10 ≤ (jsTrim reason).length → (jsTrim reason).length ≤ 500 →
      ∃ saved : Report,
        rejectReport db id (some reason) admin = .ok (Db.set db id saved, saved) ∧
        saved.status = Status.rejected ∧
        saved.rejectionReason = some (jsTrim reason)) := by
  refine ⟨?_, ?_, ?_, ?_⟩
  · intro db id reason admin h
    by_cases hr : reason = ""
    · exact ⟨.reasonRequired, by simp [rejectReport, hr, strTruthy]⟩
    · exact ⟨.reasonTooShort, by simp [rejectReport, strTruthy, hr, h]⟩
  · intro db id reason admin h
    have hr : reason ≠ "" := by
      intro hh
      rw [hh] at h
      exact absurd h (by decide)
    have h1 : ¬ ((jsTrim reason).length < 10) := by omega
    simp [rejectReport, strTruthy, hr, h1, h]
  · intro db id r reason admin hfind hrej h10 h500
    have hr : reason ≠ "" := by
      intro hh
      rw [hh] at h10
      exact absurd h10 (by decide)
    have h1 : ¬ ((jsTrim reason).length < 10) := by omega
    have h2 : ¬ (500 < (jsTrim reason).length) := by omega
    simp [rejectReport, strTruthy, hr, h1, h2, hfind, hrej]
  · intro db id r reason admin hfind hnr h10 h500
    refine ⟨rejectResult r reason admin,
      rejectReport_ok db id r reason admin hfind hnr h10 h500, rfl, rfl⟩

/-- C7 witness: a 9-character reason fails, a 10-character reason succeeds
with the trimmed reason stored. -/
theorem C7_witness :
    ((jsTrim "too short").length < 10 ∧
      ∃ e : ApiError, rejectReport baseDb 0 (some "too short") 9 = .error e) ∧
    (baseDb 0 = some baseReport ∧ baseReport.status ≠ Status.rejected ∧
      10 ≤ (jsTrim "0123456789").length ∧ (jsTrim "0123456789").length ≤ 500 ∧
      ∃ saved : Report,
        rejectReport baseDb 0 (some "0123456789") 9 =
          .ok (Db.set baseDb 0 saved, saved) ∧
        saved.status = Status.rejected ∧
        saved.rejectionReason = some (jsTrim "0123456789")) :=
  ⟨⟨by decide, C7_amended_reject_validation.1 baseDb 0 "too short" 9 (by decide)⟩,
    ⟨rfl, by decide, by decide, by decide,
      C7_amended_reject_validation.2.2.2 baseDb 0 baseReport "0123456789" 9 rfl
        (by decide) (by decide) (by decide)⟩⟩

/-- C8 counterexample: updating status to rejected through updateReportStatus
persists a rejected report with no rejectionReason. -/
theorem C8_counterexample :
    ∃ p : Db × Report,
      updateReportStatus baseDb 0 "rejected" none 9 = .ok p ∧
      p.2.status = Status.rejected ∧
      p.2.rejectionReason = none :=
  ⟨_, rfl, rfl, rfl⟩

/-- Fields the pre-save hook never touches. -/
theorem preSaveHook_fields (r : Report) (ctx : SaveCtx) :
    (preSaveHook r ctx).rejectionReason = r.rejectionReason ∧
    (preSaveHook r ctx).status = r.status := by
  unfold preSaveHook
  constructor <;> (repeat' split) <;> rfl

/-- Any document that passes a save has rejectionReason only when rejected. -/
theorem saveReport_reason_invariant (r : Report) (ctx : SaveCtx) (saved : Report)
    (hsave : saveReport r ctx = some saved) :
    saved.rejectionReason.isSome → saved.status = Status.rejected := by
  intro hsome
  unfold saveReport at hsave
  by_cases hv : validateReport r = true
  · rw [if_pos hv] at hsave
    have hsz : preSaveHook r ctx = saved := Option.some.inj hsave
    rcases hres : r.rejectionReason with _ | v
    · rw [← hsz, (preSaveHook_fields r ctx).1, hres] at hsome
      simp at hsome
    · rw [← hsz, (preSaveHook_fields r ctx).2]
      unfold validateReport at hv
      rw [hres] at hv
      simp at hv
      exact hv.2
  · rw [if_neg hv] at hsave
    cases hsave

/-- The successful branch of updateReportStatus goes through a save. -/
theorem updateReportStatus_ok_shape (db : Db) (id : ReportId) (s : String)
    (notes : Option String) (admin : UserId) (out : Db × Report)
    (h : updateReportStatus db id s notes admin = .ok out) :
    ∃ (r2 : Report) (ctx : SaveCtx), saveReport r2 ctx = some out.2 := by
  simp only [updateReportStatus] at h
  repeat' split at h
  all_goals
    first
      | (exfalso
         simp at h
         done)
      | (rename_i saved hsave
         exact ⟨_, _, hsave.trans (by rw [← congrArg Prod.snd (Except.ok.inj h)])⟩)

/-- The successful branch of rejectReport goes through a save. -/
theorem rejectReport_ok_shape (db : Db) (id : ReportId) (reason : Option String)
    (admin : UserId) (out : Db × Report)
    (h : rejectReport db id reason admin = .ok out) :
    ∃ (r2 : Report) (ctx : SaveCtx), saveReport r2 ctx = some out.2 := by
  simp only [rejectReport] at h
  repeat' split at h
  all_goals
    first
      | (exfalso
         simp at h
         done)
      | (rename_i saved hsave
         exact ⟨_, _, hsave.trans (by rw [← congrArg Prod.snd (Except.ok.inj h)])⟩)

/-- C8 amended: every persisted document satisfies one direction of the
claim, rejectionReason set only if status is rejected (the save-time
validator enforces it across all operations); but the converse fails:
updateStatus to rejected persists a rejected report with no reason. -/
theorem C8_amended_rejection_reason_invariant :
    (∀ (r : Report) (ctx : SaveCtx) (saved : Report),
      saveReport r ctx = some saved →
      saved.rejectionReason.isSome → saved.status = Status.rejected) ∧
    (∀ (db : Db) (id : ReportId) (s : String) (notes : Option String) (admin : UserId)
        (out : Db × Report),
      updateReportStatus db id s notes admin = .ok out →
      out.2.rejectionReason.isSome → out.2.status = Status.rejected) ∧
    (∀ (db : Db) (id : ReportId) (reason : Option String) (admin : UserId)
        (out : Db × Report),
      rejectReport db id reason admin = .ok out →
      out.2.rejectionReason.isSome → out.2.status = Status.rejected) ∧
    (∀ (db : Db) (id : ReportId) (u : UserId) (r : Report) (out : Db × UpvoteResp)
        (R : Report),
      db id = some r → upvoteReport db id u = .ok out → out.1 id = some R →
      R.rejectionReason.isSome → R.status = Status.rejected) ∧
    (∀ (db : Db) (newId : ReportId) (deleteOk : String → Bool) (input : CreateInput)
        (files : Files) (userId : UserId) (out : Db × Report),
      createReport db newId deleteOk input files userId = .ok out →
      out.2.rejectionReason = none) ∧
    (∀ (db : Db) (id : ReportId) (r : Report) (admin : UserId),
      db id = some r → r.status ≠ Status.rejected → r.rejectionReason = none →
      ∃ saved : Report,
        updateReportStatus db id "rejected" none admin = .ok (Db.set db id saved, saved) ∧
        saved.status = Status.rejected ∧ saved.rejectionReason = none) := by
  refine ⟨saveReport_reason_invariant, ?_, ?_, ?_, ?_, ?_⟩
  · intro db id s notes admin out h
    obtain ⟨r2, ctx, hsave⟩ := updateReportStatus_ok_shape db id s notes admin out h
    exact saveReport_reason_invariant r2 ctx out.2 hsave
  · intro db id reason admin out h
    obtain ⟨r2, ctx, hsave⟩ := rejectReport_ok_shape db id reason admin out h
    exact saveReport_reason_invariant r2 ctx out.2 hsave
  · intro db id u r out R hfind h hout
    by_cases hv : validateReport r = true
    · rw [upvoteReport_ok db id u r hfind hv] at h
      injection h with h
      subst h
      have hR : R = (upvoteStep r u).1 := by
        have hout2 : Db.set db id (upvoteStep r u).1 id = some R := hout
        have hset : Db.set db id (upvoteStep r u).1 id = some (upvoteStep r u).1 := by
          simp [Db.set]
        rw [hset] at hout2
        exact (Option.some.inj hout2).symm
      subst hR
      rw [upvoteStep_reason, upvoteStep_status]
      intro hsome
      unfold validateReport at hv
      rcases hres : r.rejectionReason with _ | v
      · rw [hres] at hsome
        simp at hsome
      · rw [hres] at hv
        simp at hv
        exact hv.2
    · exfalso
      have herr : upvoteReport db id u = .error .serverError := by
        have hv2 : validateReport (upvoteStep r u).1 = false := by
          rw [validateReport_upvoteStep]
          simpa using hv
        unfold upvoteReport
        rw [hfind]
        simp [saveReport, hv2]
      rw [herr] at h
      exact absurd h (by simp)
  · intro db newId deleteOk input files userId out h
    unfold createReport at h
    cases hu : uploadReportMedia deleteOk files with
    | error e =>
      rw [hu] at h
      exact absurd h (by simp)
    | ok up =>
      rw [hu] at h
      simp only [saveReport, validateReport, preSaveHook, strTruthy_none] at h
      simp at h
      rw [← h]
  · intro db id r admin hfind hnr hrr
    have hne : Status.rejected ≠ r.status := fun hh => hnr hh.symm
    refine ⟨updateStatusResult r .rejected none admin,
      updateStatus_ok db id .rejected r none admin hfind hne hrr, rfl, ?_⟩
    simp [updateStatusResult, hrr]

/-- C8 witness: the preserved direction and the violating operation at
concrete inputs. -/
theorem C8_witness :
    (baseDb 0 = some baseReport ∧ baseReport.status ≠ Status.rejected ∧
      baseReport.rejectionReason = none ∧
      ∃ saved : Report,
        updateReportStatus baseDb 0 "rejected" none 9 = .ok (Db.set baseDb 0 saved, saved) ∧
        saved.status = Status.rejected ∧ saved.rejectionReason = none) ∧
    (saveReport (rejectResult baseReport "not a civic issue" 9) ⟨false, true, some 9⟩ =
        some (preSaveHook (rejectResult baseReport "not a civic issue" 9) ⟨false, true, some 9⟩) ∧
      ((preSaveHook (rejectResult baseReport "not a civic issue" 9)
            ⟨false, true, some 9⟩).rejectionReason.isSome →
        (preSaveHook (rejectResult baseReport "not a civic issue" 9)
            ⟨false, true, some 9⟩).status = Status.rejected)) :=
  ⟨⟨rfl, by decide, rfl,
      C8_amended_rejection_reason_invariant.2.2.2.2.2 baseDb 0 baseReport 9 rfl (by decide) rfl⟩,
    ⟨by decide,
      C8_amended_rejection_reason_invariant.1
        (rejectResult baseReport "not a civic issue" 9) ⟨false, true, some 9⟩
        (preSaveHook (rejectResult baseReport "not a civic issue" 9) ⟨false, true, some 9⟩)
        (by decide)⟩⟩


/-- The upload loop stops at the first failing file, reporting exactly the
public ids uploaded before it. -/
theorem uploadLoop_fail (pre : List (MediaKind × UploadFile)) (k : MediaKind)
    (f : UploadFile) (rest : List (MediaKind × UploadFile)) (media : List MediaItem)
    (ids : List (String × MediaKind))
    (hpre : ∀ x ∈ pre, x.2.outcome.isSome = true) (hf : f.outcome = none) :
    uploadLoop (pre ++ (k, f) :: rest) media ids =
      .error (ids ++
        pre.filterMap (fun x => x.2.outcome.map (fun res => (res.publicId, x.1)))) := by
  induction pre generalizing media ids with
  | nil => simp [uploadLoop, hf]
  | cons hd tl ih =>
    obtain ⟨k0, f0⟩ := hd
    obtain ⟨res, hres⟩ := Option.isSome_iff_exists.mp (hpre (k0, f0) (by simp))
    have hres2 : f0.outcome = some res := hres
    simp only [List.cons_append, uploadLoop, hres2, List.append_eq]
    rw [ih _ _ (fun x hx => hpre x (by simp [hx]))]
    simp [hres2, List.append_assoc]

/-- When the store accepts every delete, the batch delete succeeds on every
public id and fails on none. -/
theorem deleteMultipleMedia_all (deleteOk : String → Bool)
    (l : List (String × MediaKind)) (h : ∀ x ∈ l, deleteOk x.1 = true) :
    deleteMultipleMedia deleteOk l = (l.map Prod.fst, []) := by
  induction l with
  | nil => rfl
  | cons m rest ih =>
    simp only [deleteMultipleMedia, deleteMedia]
    rw [ih (fun x hx => h x (by simp [hx]))]
    simp [h m (by simp)]

/-- C1: when the upload of file k of a creation batch fails, rollback is
invoked on exactly the files uploaded before it (all of them deleted when
the store accepts the deletes), the creation request surfaces a single
media-upload error, and no report record is ever persisted. -/
theorem C1_create_rollback_atomicity (db : Db) (newId : ReportId)
    (deleteOk : String → Bool) (input : CreateInput) (files : Files) (userId : UserId)
    (pre : List (MediaKind × UploadFile)) (k : MediaKind) (f : UploadFile)
    (rest : List (MediaKind × UploadFile))
    (hsplit : taggedFiles files = pre ++ (k, f) :: rest)
    (hpre : ∀ x ∈ pre, x.2.outcome.isSome = true)
    (hf : f.outcome = none) :
    ∃ e : UploadFailure,
      uploadReportMedia deleteOk files = .error e ∧
      e.attempted =
        pre.filterMap (fun x => x.2.outcome.map (fun res => (res.publicId, x.1))) ∧
      ((∀ x ∈ e.attempted, deleteOk x.1 = true) →
        e.deleted = e.attempted.map Prod.fst ∧ e.failedDeletes = []) ∧
      createReport db newId deleteOk input files userId = .error (.mediaUpload e) ∧
      ∀ out : Db × Report, createReport db newId deleteOk input files userId ≠ .ok out := by
  have hloop := uploadLoop_fail pre k f rest [] [] hpre hf
  set ids := pre.filterMap (fun x => x.2.outcome.map (fun res => (res.publicId, x.1)))
    with hids
  have hup : uploadReportMedia deleteOk files =
      .error ⟨ids, (deleteMultipleMedia deleteOk ids).1,
        (deleteMultipleMedia deleteOk ids).2⟩ := by
    unfold uploadReportMedia
    rw [hsplit, hloop]
    simp
  refine ⟨_, hup, rfl, ?_, ?_, ?_⟩
  · intro hall
    rw [deleteMultipleMedia_all deleteOk ids hall]
    exact ⟨rfl, rfl⟩
  · unfold createReport
    rw [hup]
  · intro out
    unfold createReport
    rw [hup]
    simp

/-- C1 witness: a three-file batch whose audio upload fails, against a store
that accepts every delete. -/
theorem C1_witness :
    taggedFiles failingBatch =
      [(MediaKind.image, fileA), (MediaKind.video, fileB)] ++
        (MediaKind.audio, fileBad) :: [] ∧
    (∀ x ∈ [(MediaKind.image, fileA), (MediaKind.video, fileB)],
      x.2.outcome.isSome = true) ∧
    fileBad.outcome = none ∧
    ∃ e : UploadFailure,
      uploadReportMedia (fun _ => true) failingBatch = .error e ∧
      e.attempted =
        [(MediaKind.image, fileA), (MediaKind.video, fileB)].filterMap
          (fun x => x.2.outcome.map (fun res => (res.publicId, x.1))) ∧
      ((∀ x ∈ e.attempted, (fun _ : String => true) x.1 = true) →
        e.deleted = e.attempted.map Prod.fst ∧ e.failedDeletes = []) ∧
      createReport baseDb 5 (fun _ => true) sampleInput failingBatch 1 =
        .error (.mediaUpload e) ∧
      ∀ out : Db × Report,
        createReport baseDb 5 (fun _ => true) sampleInput failingBatch 1 ≠ .ok out :=
  ⟨rfl, by decide, rfl,
    C1_create_rollback_atomicity baseDb 5 (fun _ => true) sampleInput failingBatch 1
      [(MediaKind.image, fileA), (MediaKind.video, fileB)] .audio fileBad [] rfl
      (by decide) rfl⟩

/-- A nearby request with any validation error answers the error list and
never consults the query engine. -/
theorem getNearbyReports_error (run : GeoRequest → List Report) (q : NearbyQuery)
    (hne : nearbyErrors q ≠ []) :
    getNearbyReports run q = .error (nearbyErrors q) := by
  simp [getNearbyReports, hne]

/-- C9: an out-of-range radius, limit, latitude or longitude fails the
nearby query with a validation error whose value does not depend on the
query engine (the geospatial query is not executed), while in-range
parameters run the query with exactly the supplied center, radius and
limit. -/
theorem C9_nearby_validation :
    (∀ (run : GeoRequest → List Report) (q : NearbyQuery) (v : Int),
      q.radius = some v → (v < 100 ∨ 50000 < v) →
      ∃ msgs : List String, getNearbyReports run q = .error msgs) ∧
    (∀ (run : GeoRequest → List Report) (q : NearbyQuery) (v : Int),
      q.limit = some v → (v < 1 ∨ 100 < v) →
      ∃ msgs : List String, getNearbyReports run q = .error msgs) ∧
    (∀ (run : GeoRequest → List Report) (q : NearbyQuery) (a : Rat),
      q.lat = some a → (a < -90 ∨ 90 < a) →
      ∃ msgs : List String, getNearbyReports run q = .error msgs) ∧
    (∀ (run : GeoRequest → List Report) (q : NearbyQuery) (b : Rat),
      q.lng = some b → (b < -180 ∨ 180 < b) →
      ∃ msgs : List String, getNearbyReports run q = .error msgs) ∧
    (∀ (q : NearbyQuery) (run1 run2 : GeoRequest → List Report),
      nearbyErrors q ≠ [] →
      getNearbyReports run1 q = getNearbyReports run2 q) ∧
    (∀ (run : GeoRequest → List Report) (a b : Rat) (v l : Int),
      -90 ≤ a → a ≤ 90 → -180 ≤ b → b ≤ 180 →
      100 ≤ v → v ≤ 50000 → 1 ≤ l → l ≤ 100 →
      getNearbyReports run ⟨some a, some b, some v, some l⟩ =
        .ok (run ⟨b, a, v, l⟩, ⟨b, a, v, l⟩)) := by
  refine ⟨?_, ?_, ?_, ?_, ?_, ?_⟩
  · intro run q v hv hout
    have hrad : radiusErrors q.radius = ["Radius must be between 100 and 50000 meters"] := by
      rw [hv]
      simp only [radiusErrors]
      rw [if_pos hout]
    have hne : nearbyErrors q ≠ [] := by
      intro hnil
      unfold nearbyErrors at hnil
      rw [hrad] at hnil
      simp [List.append_eq_nil] at hnil
    exact ⟨nearbyErrors q, getNearbyReports_error run q hne⟩
  · intro run q v hv hout
    have hlim : limitErrors q.limit = ["Limit must be between 1 and 100"] := by
      rw [hv]
      simp only [limitErrors]
      rw [if_pos hout]
    have hne : nearbyErrors q ≠ [] := by
      intro hnil
      unfold nearbyErrors at hnil
      rw [hlim] at hnil
      simp [List.append_eq_nil] at hnil
    exact ⟨nearbyErrors q, getNearbyReports_error run q hne⟩
  · intro run q a ha hout
    have hlat : latErrors q.lat = ["Latitude must be between -90 and 90"] := by
      rw [ha]
      simp only [latErrors]
      rw [if_pos hout]
    have hne : nearbyErrors q ≠ [] := by
      intro hnil
      unfold nearbyErrors at hnil
      rw [hlat] at hnil
      simp [List.append_eq_nil] at hnil
    exact ⟨nearbyErrors q, getNearbyReports_error run q hne⟩
  · intro run q b hb hout
    have hlng : lngErrors q.lng = ["Longitude must be between -180 and 180"] := by
      rw [hb]
      simp only [lngErrors]
      rw [if_pos hout]
    have hne : nearbyErrors q ≠ [] := by
      intro hnil
      unfold nearbyErrors at hnil
      rw [hlng] at hnil
      simp [List.append_eq_nil] at hnil
    exact ⟨nearbyErrors q, getNearbyReports_error run q hne⟩
  · intro q run1 run2 hne
    rw [getNearbyReports_error run1 q hne, getNearbyReports_error run2 q hne]
  · intro run a b v l ha1 ha2 hb1 hb2 hv1 hv2 hl1 hl2
    have hlat : latErrors (some a) = [] := by
      simp only [latErrors]
      rw [if_neg (by push_neg; constructor <;> linarith)]
    have hlng : lngErrors (some b) = [] := by
      simp only [lngErrors]
      rw [if_neg (by push_neg; constructor <;> linarith)]
    have hrad : radiusErrors (some v) = [] := by
      simp only [radiusErrors]
      rw [if_neg (by push_neg; constructor <;> omega)]
    have hlim : limitErrors (some l) = [] := by
      simp only [limitErrors]
      rw [if_neg (by push_neg; constructor <;> omega)]
    have hne : nearbyErrors ⟨some a, some b, some v, some l⟩ = [] := by
      unfold nearbyErrors
      rw [hlat, hlng, hrad, hlim]
      rfl
    simp [getNearbyReports, hne, nearbyData]

/-- C9 witness: a too-small radius fails, and in-range parameters echo the
supplied center, radius and limit. -/
theorem C9_witness :
    ((⟨some 28, some 77, some 50, some 10⟩ : NearbyQuery).radius = some 50 ∧
      ((50 : Int) < 100 ∨ (50000 : Int) < 50) ∧
      ∃ msgs : List String,
        getNearbyReports (fun _ => []) ⟨some 28, some 77, some 50, some 10⟩ =
          .error msgs) ∧
    ((-90 : Rat) ≤ 28 ∧ (28 : Rat) ≤ 90 ∧ (-180 : Rat) ≤ 77 ∧ (77 : Rat) ≤ 180 ∧
      (100 : Int) ≤ 5000 ∧ (5000 : Int) ≤ 50000 ∧ (1 : Int) ≤ 10 ∧ (10 : Int) ≤ 100 ∧
      getNearbyReports (fun _ => []) ⟨some 28, some 77, some 5000, some 10⟩ =
        .ok ([], ⟨77, 28, 5000, 10⟩)) :=
  ⟨⟨rfl, Or.inl (by decide),
      C9_nearby_validation.1 (fun _ => []) ⟨some 28, some 77, some 50, some 10⟩ 50 rfl
        (Or.inl (by decide))⟩,
    ⟨by decide, by decide, by decide, by decide, by decide, by decide, by decide, by decide,
      C9_nearby_validation.2.2.2.2.2 (fun _ => []) 28 77 5000 10 (by decide) (by decide)
        (by decide) (by decide) (by decide) (by decide) (by decide) (by decide)⟩⟩

/-- Bounds characterizing the ceiling division of the pagination code. -/
theorem jsCeilDiv_bounds (t limit : Nat) (hl0 : 0 < limit) :
    t ≤ jsCeilDiv t limit * limit ∧ jsCeilDiv t limit * limit < t + limit := by
  unfold jsCeilDiv
  rcases Nat.eq_zero_or_pos t with h0 | h0
  · subst h0
    have hz : (0 + limit - 1) / limit = 0 := Nat.div_eq_of_lt (by omega)
    rw [hz]
    omega
  · have heq : t + limit - 1 = (t - 1) + limit := by omega
    have hp1 : (t + limit - 1) / limit = (t - 1) / limit + 1 := by
      rw [heq, Nat.add_div_right _ hl0]
    have hdm := Nat.div_add_mod (t - 1) limit
    rw [Nat.mul_comm] at hdm
    have hmod : (t - 1) % limit < limit := Nat.mod_lt _ hl0
    rw [hp1, Nat.add_mul, one_mul]
    omega

/-- C10: pages equals the ceiling of total divided by limit, and requesting
a page beyond pages yields an empty items list rather than an error. -/
theorem C10_pagination (matching : List Report) (page limit : Nat)
    (hp : 1 ≤ page) (hl : 1 ≤ limit) :
    (((paginateReports matching page limit).2.pages : ℤ) =
      ⌈(matching.length : ℚ) / (limit : ℚ)⌉) ∧
    ((paginateReports matching page limit).2.pages < page →
      (paginateReports matching page limit).1 = []) := by
  have hl0 : 0 < limit := hl
  obtain ⟨k1, k2⟩ := jsCeilDiv_bounds matching.length limit hl0
  set t := matching.length with ht
  set p := jsCeilDiv t limit with hpdef
  have hpages : (paginateReports matching page limit).2.pages = p := rfl
  constructor
  · rw [hpages, eq_comm, Int.ceil_eq_iff]
    have hQ : (0 : ℚ) < (limit : ℚ) := by exact_mod_cast hl0
    constructor
    · rw [lt_div_iff₀ hQ]
      have hc : ((p * limit : Nat) : ℚ) < ((t + limit : Nat) : ℚ) := by exact_mod_cast k2
      push_cast at hc ⊢
      linarith
    · rw [div_le_iff₀ hQ]
      exact_mod_cast k1
  · intro hlt
    rw [hpages] at hlt
    have hmul : p * limit ≤ (page - 1) * limit := Nat.mul_le_mul_right _ (by omega)
    have hskip : t ≤ (page - 1) * limit := le_trans k1 hmul
    show ((matching.drop ((page - 1) * limit)).take limit) = []
    rw [List.drop_eq_nil_of_le (by rw [← ht]; exact hskip), List.take_nil]

/-- C10 witness: five matching reports, limit two, page four: pages is three
and the items list is empty. -/
theorem C10_witness :
    1 ≤ 4 ∧ 1 ≤ 2 ∧
    ((((paginateReports (List.replicate 5 baseReport) 4 2).2.pages : ℤ) =
      ⌈((List.replicate 5 baseReport).length : ℚ) / ((2 : Nat) : ℚ)⌉) ∧
    ((paginateReports (List.replicate 5 baseReport) 4 2).2.pages < 4 →
      (paginateReports (List.replicate 5 baseReport) 4 2).1 = [])) :=
  ⟨by decide, by decide,
    C10_pagination (List.replicate 5 baseReport) 4 2 (by decide) (by decide)⟩

end CivicReport
